import Mathlib

set_option maxHeartbeats 1000000

/-! Verification development for the argument-binding and invocation core of
the apihttpwrapper repository (service_handler.go), shallowly embedded.

Go reflect types are modelled by an inductive at exactly the granularity the
source inspects: kinds and type names.  Struct types additionally carry their
field names, which is what the form decoder and the JSON decoder observe.
Candidate callables offered to registration are modelled separately, since the
source only ever looks at NumIn/NumOut/In/Out of a func type.

The per-request pipeline (ServeHTTPWithParams) is modelled as a pure function
from the handler, the raw request data, and an environment (clock readings and
the captured stack text, which the source obtains from time.Now and
debug.Stack) to a result record: the response-writer state, whether the
handler body actually ran, and the access-log records.  The response writer
follows net/http semantics at the level the source relies on: the first
WriteHeader call fixes the status, a body write with no prior WriteHeader
fixes status 200, and header mutations are a keyed replace. -/

inductive GoType where
  | ptr (elem : GoType)
  | struct' (name : String) (fields : List String)
  | slice (elem : GoType)
  | map' (key : GoType) (elem : GoType)
  | interface' (name : String)
  | funcOpaque
  | int'
  | string'
  | bool'
  deriving DecidableEq

/-- Source isTypeServiceMethodContext: kind Ptr, elem kind Struct, elem name
"ServiceMethodContext". -/
def isTypeServiceMethodContext : GoType → Bool
  | .ptr (.struct' n _) => n == "ServiceMethodContext"
  | _ => false

/-- Source isStructPointer: kind Ptr and elem kind Struct. -/
def isStructPointer : GoType → Bool
  | .ptr (.struct' _ _) => true
  | _ => false

/-- Source isStringMap: kind Map, key kind String, elem kind Interface with
empty name. -/
def isStringMap : GoType → Bool
  | .map' .string' (.interface' n) => n == ""
  | _ => false

/-- Source isSlice: kind Slice. -/
def isSlice : GoType → Bool
  | .slice _ => true
  | _ => false

/-- A candidate value handed to registration, as seen through reflect.TypeOf:
either a func type (with its In and Out lists) or some non-func type. -/
inductive GoCandidateType where
  | func' (ins : List GoType) (outs : List GoType)
  | nonFunc (t : GoType)
  deriving DecidableEq

/-- Source isCustomResponseBodyFunction: NumOut = 1 and Out(0) is an interface
named "error". -/
def isCustomResponseBodyFunction : GoCandidateType → Bool
  | .func' _ [.interface' n] => n == "error"
  | _ => false

/-- Source isDelegatedResponseBodyFunction: NumOut = 2, Out(0) a struct
pointer, Out(1) an interface named "error". -/
def isDelegatedResponseBodyFunction : GoCandidateType → Bool
  | .func' _ [.ptr (.struct' _ _), .interface' n] => n == "error"
  | _ => false

/-- Source checkServiceMethodPrototype, including the nil / non-func guard
(reflect.TypeOf of a nil method is nil). -/
def checkServiceMethodPrototype : Option GoCandidateType → Except String Unit
  | none => .error "you should provide a function or object method"
  | some (.nonFunc _) => .error "you should provide a function or object method"
  | some (.func' ins outs) =>
    if ins.length != 2 then
      .error "the service method should have two arguments"
    else if !(isTypeServiceMethodContext (ins.getD 0 .int')) then
      .error "the first argument should be type *ServiceMethodContext"
    else if !(isSlice (ins.getD 1 .int') || isStringMap (ins.getD 1 .int') ||
              isStructPointer (ins.getD 1 .int')) then
      .error "the second argument should be a struct pointer, slice or map[string]interface\x7b\x7d"
    else if !(isCustomResponseBodyFunction (.func' ins outs) ||
              isDelegatedResponseBodyFunction (.func' ins outs)) then
      .error "the service method only can return error interface or (*struct, error)"
    else
      .ok ()

/-- What the handler function does to the response writer while it runs: calls
of the ResponseStatusSetter closure and direct writes through the
ResponseBodyWriter, in order. -/
inductive HandlerAction where
  | setStatus (code : Nat)
  | writeBody (chunk : String)
  deriving DecidableEq

/-- How the handler call ends: a panic, a single error return, or a
(struct-pointer result, error) pair.  In ret2 the result None models a nil
pointer of the declared pointer type. -/
inductive MethodOutcome where
  | panics (msg : String)
  | ret1 (err : Option String)
  | ret2 (res : Option String) (err : Option String)
  deriving DecidableEq

structure MethodBehavior where
  actions : List HandlerAction
  outcome : MethodOutcome
  deriving DecidableEq

/-- The registered ServiceHandler: logger key presence, the declared argument
type (methodType.In(1)), the handler body's behaviour, and the bypass flag. -/
structure ServiceHandlerM where
  hasLoggerKey : Bool
  argType : GoType
  behavior : MethodBehavior
  bypassRequestBody : Bool
  deriving DecidableEq

/-- methodType.In(1), as stored by NewServiceHandler. -/
def methodArgType : Option GoCandidateType → GoType
  | some (.func' ins _) => ins.getD 1 .int'
  | _ => .int'

/-- Source NewServiceHandler: validate the prototype, then build the handler
with argType = methodType.In(1). -/
def NewServiceHandler (methodType : Option GoCandidateType) (b : MethodBehavior)
    (loggerKeyPresent bypassRequestBody : Bool) : Except String ServiceHandlerM :=
  match checkServiceMethodPrototype methodType with
  | .error e => .error e
  | .ok _ =>
    .ok { hasLoggerKey := loggerKeyPresent, argType := methodArgType methodType,
          behavior := b, bypassRequestBody := bypassRequestBody }

def isOkE {α : Type} : Except String α → Bool
  | .ok _ => true
  | .error _ => false

/-- Keyed single-value lookup in an association list (url.Values / header
lookup at the granularity the source uses). -/
def lookupVal : List (String × String) → String → Option String
  | [], _ => none
  | (k, v) :: rest, f => if k == f then some v else lookupVal rest f

/-- Keyed replace-or-append (url.Values.Set / http.Header.Set). -/
def valuesSet : List (String × String) → String → String → List (String × String)
  | [], k, v => [(k, v)]
  | (k2, v2) :: rest, k, v =>
    if k2 == k then (k2, v) :: rest else (k2, v2) :: valuesSet rest k v

/-- The single-valued url.Values built from httprouter params by repeated Set
calls (a later param with the same key overrides an earlier one). -/
def paramsToValues (ps : List (String × String)) : List (String × String) :=
  ps.foldl (fun acc kv => valuesSet acc kv.1 kv.2) []

/-- The freshly allocated argument value reflect.New produces, viewed through
the decoders: either a pointer to a zero struct (fields unset), or a pointer
to something that is not a struct, which the form decoder rejects. -/
inductive ArgValue where
  | structArg (fields : List (String × Option String))
  | nonStructTarget (t : GoType)
  deriving DecidableEq

def freshFields : List String → List (String × Option String)
  | [] => []
  | f :: rest => (f, none) :: freshFields rest

def fieldGet : List (String × Option String) → String → Option (Option String)
  | [], _ => none
  | (g, v) :: rest, f => if g == f then some v else fieldGet rest f

/-- One decode pass of keyed values into the struct fields: a field named in
the values is overwritten, any other field keeps its prior value, and unknown
keys are ignored (formDecoder.IgnoreUnknownKeys(true); JSON decoding into a
struct likewise ignores unknown keys). -/
def decodeFields : List (String × Option String) → List (String × String) →
    List (String × Option String)
  | [], _ => []
  | (g, v) :: rest, vals =>
    (g, match lookupVal vals g with
        | some s => some s
        | none => v) :: decodeFields rest vals

/-- Source formDecoder.Decode: gorilla/schema requires the destination to be a
pointer to a struct and otherwise fails; on a struct pointer it decodes the
values per field. -/
def formDecoderDecode (arg : ArgValue) (vals : List (String × String)) :
    Except String ArgValue :=
  match arg with
  | .structArg fields => .ok (.structArg (decodeFields fields vals))
  | .nonStructTarget _ => .error "schema: interface must be a pointer to struct"

/-- The request body as the JSON decoder sees it when the destination is a
struct pointer: a top-level null (a no-op decode), a top-level object, or a
decode error (syntax error, empty body EOF, or a non-object top-level value,
whose decoder message is carried in the error).  Field keys are matched by
name, as in the repository's tests. -/
inductive JsonBody where
  | null
  | obj (kvs : List (String × String))
  deriving DecidableEq

/-- Source json.NewDecoder(r.Body).Decode(arg) for a struct-pointer arg. -/
def jsonDecodeBody (body : Except String JsonBody) (arg : ArgValue) :
    Except String ArgValue :=
  match body with
  | .error e => .error e
  | .ok .null => .ok arg
  | .ok (.obj kvs) =>
    match arg with
    | .structArg fields => .ok (.structArg (decodeFields fields kvs))
    | .nonStructTarget _ => .ok arg

deriving instance DecidableEq for Except

/-- The raw inbound request data the binding and logging code observes.  The
two form-parse fields are the r.Form contents (or the parse error) produced by
ParseMultipartForm and ParseForm respectively; jsonBody is the outcome of
decoding the body bytes as JSON against a struct target. -/
structure Request where
  method : String
  contentType : String
  multipartFormResult : Except String (List (String × String))
  urlFormResult : Except String (List (String × String))
  jsonBody : Except String JsonBody
  params : Option (List (String × String))
  ctxHasMethodLogger : Bool
  deriving DecidableEq

/-- reflect.Type.Elem for the kinds that can reach it here. -/
def elemType : GoType → GoType
  | .ptr e => e
  | .slice e => e
  | .map' _ e => e
  | t => t

/-- reflect.New(h.method.argType.Elem()): the fresh argument value together
with its runtime type, which is a pointer to the element type (and therefore
differs from the declared argType when that is a slice or a map). -/
def reflectNewArg (argType : GoType) : ArgValue × GoType :=
  (match elemType argType with
   | .struct' _ fs => ArgValue.structArg (freshFields fs)
   | t => ArgValue.nonStructTarget (.ptr t),
   .ptr (elemType argType))

/-- strings.ToUpper for the ASCII method strings the source compares. -/
def asciiToUpper (s : String) : String :=
  String.mk (s.toList.map (fun c =>
    if c.toNat >= 97 && c.toNat <= 122 then Char.ofNat (c.toNat - 32) else c))

/-- strings.ToLower for the ASCII content-type strings the source compares. -/
def asciiToLower (s : String) : String :=
  String.mk (s.toList.map (fun c =>
    if c.toNat >= 65 && c.toNat <= 90 then Char.ofNat (c.toNat + 32) else c))

/-- strings.HasPrefix. -/
def strStartsWith (s pre : String) : Bool :=
  pre.toList.isPrefixOf s.toList

/-- Source parseArgument: query/form pass (multipart for POST multipart
requests, ParseForm otherwise), then the JSON body pass for POST
application/json requests when the bypass flag is off, then the path-parameter
pass when the router supplied a non-nil params slice. -/
def parseArgument (h : ServiceHandlerM) (r : Request) (arg : ArgValue) :
    Except String ArgValue :=
  let method := asciiToUpper r.method
  let contentType := asciiToLower r.contentType
  match (if method == "POST" && contentType == "multipart/form-data"
         then r.multipartFormResult else r.urlFormResult) with
  | .error e => .error e
  | .ok form =>
    match formDecoderDecode arg form with
    | .error e => .error e
    | .ok arg1 =>
      match (if method == "POST" && !h.bypassRequestBody &&
                strStartsWith contentType "application/json"
             then jsonDecodeBody r.jsonBody arg1
             else .ok arg1) with
      | .error e => .error e
      | .ok arg2 =>
        match r.params with
        | none => .ok arg2
        | some ps => formDecoderDecode arg2 (paramsToValues ps)

/-- Envelope data: either an error message string or the panic description and
stack pair (the source's panicStack struct). -/
inductive EnvData where
  | errText (s : String)
  | panicData (panicMsg : String) (stack : String)
  deriving DecidableEq

/-- What the source hands to the JSON encoder for a response body: a
FormattedResponse envelope, or the handler's raw return value (None models the
typed nil struct pointer, which encodes as null). -/
inductive RespData where
  | envelope (code : Nat) (msg : String) (data : EnvData)
  | retValue (v : Option String)
  deriving DecidableEq

/-- A chunk written to the response body: either raw bytes written by the
handler itself through ResponseBodyWriter, or one JSON-encoded value written
by the core. -/
inductive Chunk where
  | raw (s : String)
  | json (d : RespData)
  deriving DecidableEq

/-- The response-writer state: the header map, the status fixed by the first
WriteHeader call (None while unwritten; the transport defaults an unwritten
status to 200 at completion), and the body chunks in order. -/
structure RespWriter where
  headers : List (String × String)
  status : Option Nat
  body : List Chunk
  deriving DecidableEq

def emptyRW : RespWriter := { headers := [], status := none, body := [] }

/-- net/http WriteHeader: only the first call takes effect. -/
def rwWriteHeader (w : RespWriter) (code : Nat) : RespWriter :=
  match w.status with
  | some _ => w
  | none => { w with status := some code }

/-- net/http Write: an implicit WriteHeader(200) if none happened yet, then
append the chunk. -/
def rwWrite (w : RespWriter) (c : Chunk) : RespWriter :=
  let w2 := rwWriteHeader w 200
  { w2 with body := w2.body ++ [c] }

/-- Source setResponseHeader: sets the MIME-sniffing-prevention header and the
JSON content type (header names in their canonical net/http form). -/
def setResponseHeader (w : RespWriter) : RespWriter :=
  let hs1 := valuesSet w.headers "X-Content-Type-Options" "nosniff"
  let hs2 := valuesSet hs1 "Content-Type" "application/json"
  { w with headers := hs2 }

/-- Source writeResponse: set the two headers, then JSON-encode the handler's
return value into the body. -/
def writeResponse (w : RespWriter) (v : Option String) : RespWriter :=
  rwWrite (setResponseHeader w) (.json (.retValue v))

/-- Source writeErrorResponse: set the two headers, WriteHeader(resp.Code),
then JSON-encode the FormattedResponse envelope. -/
def writeErrorResponse (w : RespWriter) (code : Nat) (msg : String)
    (data : EnvData) : RespWriter :=
  rwWrite (rwWriteHeader (setResponseHeader w) code) (.json (.envelope code msg data))

/-- The recovered panic record (source panicStack): the panic description and
the debug.Stack text. -/
structure PanicStackInfo where
  panicMsg : String
  stack : String
  deriving DecidableEq

/-- The state after doServiceMethodCall plus the respStatus variable mutated
by the ResponseStatusSetter closure (initialised to http.StatusOK just before
the call).  invoked records whether the handler body actually ran, which it
does not when reflect.Value.Call rejects the argument value's type. -/
structure CallState where
  rw : RespWriter
  respStatus : Nat
  out : Option MethodOutcome
  panicInfo : Option PanicStackInfo
  invoked : Bool
  deriving DecidableEq

/-- The handler's side effects in order: the ResponseStatusSetter closure sets
respStatus and immediately calls WriteHeader; body writes go straight to the
response writer. -/
def applyActions : List HandlerAction → RespWriter × Nat → RespWriter × Nat
  | [], st => st
  | .setStatus c :: rest, (w, _) => applyActions rest (rwWriteHeader w c, c)
  | .writeBody s :: rest, (w, st) => applyActions rest (rwWrite w (.raw s), st)

/-- A textual rendering of a type, as it appears in reflect's Call panic
message. -/
def goTypeString : GoType → String
  | .ptr e => "*" ++ goTypeString e
  | .struct' ("") _ => "struct \x7b...\x7d"
  | .struct' n _ => n
  | .slice e => "[]" ++ goTypeString e
  | .map' k e => "map[" ++ goTypeString k ++ "]" ++ goTypeString e
  | .interface' ("") => "interface \x7b\x7d"
  | .interface' n => n
  | .funcOpaque => "func"
  | .int' => "int"
  | .string' => "string"
  | .bool' => "bool"

/-- Source doServiceMethodCall: run the handler through reflect.Value.Call
under a deferred recover.  Call first checks that the argument value's runtime
type matches the declared parameter type and panics without entering the
handler when it does not; otherwise the handler body runs (performing its
actions) and either returns its values or panics.  A recovered panic yields
the panicStack record with the debug.Stack text. -/
def doServiceMethodCall (declared argValType : GoType) (b : MethodBehavior)
    (stack : String) (w : RespWriter) : CallState :=
  if argValType = declared then
    let ws := applyActions b.actions (w, 200)
    match b.outcome with
    | .panics m =>
      { rw := ws.1, respStatus := ws.2, out := none,
        panicInfo := some { panicMsg := m, stack := stack }, invoked := true }
    | o =>
      { rw := ws.1, respStatus := ws.2, out := some o,
        panicInfo := none, invoked := true }
  else
    { rw := w, respStatus := 200, out := none,
      panicInfo := some
        { panicMsg := "reflect: Call using " ++ goTypeString argValType ++
            " as type " ++ goTypeString declared,
          stack := stack },
      invoked := false }

/-- out[0].Interface() boxed as a Go interface value: for a two-value return
the first result is a concretely typed pointer, so the interface is non-nil
even when the pointer itself is nil (the outer Option is the interface's
nil-ness, the inner Option the pointer's). -/
def methodReturnOf : Option MethodOutcome → Option (Option String)
  | some (.ret2 v _) => some v
  | _ => none

/-- The error slot: out[1] for two-value returns, out[0] for one-value
returns.  These results have interface type, so a nil error is a nil
interface. -/
def methodErrorOf : Option MethodOutcome → Option String
  | some (.ret2 _ e) => e
  | some (.ret1 e) => e
  | _ => none

/-- The outcome classification and response write of ServeHTTPWithParams after
the call returns: panic envelope first; otherwise an error envelope (with the
500 default only when no explicit non-200 status was set); otherwise the raw
return value when the returned interface is non-nil; otherwise nothing.
Returns the writer and the respData value used for access logging. -/
def classifyAndWrite (w : RespWriter) (respStatus : Nat)
    (out : Option MethodOutcome) (ps : Option PanicStackInfo) :
    RespWriter × Option RespData :=
  match ps with
  | some p =>
    (writeErrorResponse w 500 "service method panicked" (.panicData p.panicMsg p.stack),
     some (.envelope 500 "service method panicked" (.panicData p.panicMsg p.stack)))
  | none =>
    match methodErrorOf out with
    | some em =>
      let st := if respStatus == 200 then 500 else respStatus
      (writeErrorResponse w st "service method error" (.errText em),
       some (.envelope st "service method error" (.errText em)))
    | none =>
      match methodReturnOf out with
      | some v => (writeResponse w v, some (.retValue v))
      | none => (w, none)

/-- A wall-clock reading, as the fields the time layout renders. -/
structure GoTime where
  year : Nat
  month : Nat
  day : Nat
  hour : Nat
  minute : Nat
  second : Nat
  nanos : Nat
  deriving DecidableEq

def padLeftZeros (w : Nat) (s : String) : String :=
  if s.length >= w then s else String.mk (List.replicate (w - s.length) '0') ++ s

def trimTrailingZeros (s : String) : String :=
  String.mk ((s.toList.reverse.dropWhile (fun c => c == '0')).reverse)

/-- The fractional-second part of the Go layout ".999999999": up to nine
digits, trailing zeros removed, and the decimal point itself omitted when the
fraction is zero. -/
def goFracNano (ns : Nat) : String :=
  if ns == 0 then "" else "." ++ trimTrailingZeros (padLeftZeros 9 (toString ns))

/-- time.Time.Format with the source's layout "2006-01-02 15:04:05.999999999". -/
def goFormatDateTimeNano (t : GoTime) : String :=
  padLeftZeros 4 (toString t.year) ++ "-" ++ padLeftZeros 2 (toString t.month) ++
    "-" ++ padLeftZeros 2 (toString t.day) ++ " " ++
    padLeftZeros 2 (toString t.hour) ++ ":" ++ padLeftZeros 2 (toString t.minute) ++
    ":" ++ padLeftZeros 2 (toString t.second) ++ goFracNano t.nanos

/-- The invocation duration rendered as decimal seconds (the source feeds
duration.Seconds() through strconv.FormatFloat(_, 'f', -1, 64); modelled here
as the exact decimal of the nanosecond count). -/
def durationSecondsString (ns : Nat) : String :=
  let frac := ns % 1000000000
  toString (ns / 1000000000) ++
    (if frac == 0 then "" else "." ++ trimTrailingZeros (padLeftZeros 9 (toString frac)))

/-- json.Marshal of the bound argument value for the access log (field values
are modelled as JSON strings; fields never set render as null). -/
def marshalArg : ArgValue → String
  | .structArg fields =>
    "\x7b" ++ String.intercalate ","
      (fields.map (fun fv =>
        "\"" ++ fv.1 ++ "\":" ++
          (match fv.2 with
           | some s => "\"" ++ s ++ "\""
           | none => "null"))) ++ "\x7d"
  | .nonStructTarget _ => "null"

def marshalEnvData : EnvData → String
  | .errText s => "\"" ++ s ++ "\""
  | .panicData p st => "\x7b\"panic\":\"" ++ p ++ "\",\"stack\":\"" ++ st ++ "\"\x7d"

/-- json.Marshal of the respData interface value for the access log (nil
marshals as null; a retValue carries its own JSON rendering). -/
def marshalRespData : Option RespData → String
  | none => "null"
  | some (.retValue none) => "null"
  | some (.retValue (some s)) => s
  | some (.envelope c m d) =>
    "\x7b\"code\":" ++ toString c ++ ",\"msg\":\"" ++ m ++ "\",\"data\":" ++
      marshalEnvData d ++ "\x7d"

/-- Per-request environment the source reads ambiently: the time.Now reading
taken just before the call, the measured duration, and the debug.Stack text. -/
structure Env where
  beginTime : GoTime
  durationNs : Nat
  stack : String
  deriving DecidableEq

/-- The observable outcome of one ServeHTTPWithParams run. -/
structure ServeResult where
  rw : RespWriter
  invoked : Bool
  logRecords : List (String × String)
  deriving DecidableEq

/-- The four Record calls made when a logger is found under the context key. -/
def mkLogRecords (arg : ArgValue) (respd : Option RespData) (env : Env) :
    List (String × String) :=
  [("args", marshalArg arg), ("resp", marshalRespData respd),
   ("methodBegin", goFormatDateTimeNano env.beginTime),
   ("methodDuration", durationSecondsString env.durationNs)]

/-- Source ServeHTTPWithParams: allocate the argument with reflect.New, bind
it (a bind failure answers 400 with the parse-argument envelope and stops),
run the handler under recover, classify and write the outcome, then report the
four access-log fields when the handler was built with a logger context key
and the request context carries a MethodLogger under it. -/
def ServeHTTPWithParams (h : ServiceHandlerM) (r : Request) (env : Env) :
    ServeResult :=
  match parseArgument h r (reflectNewArg h.argType).1 with
  | .error e =>
    { rw := writeErrorResponse emptyRW 400 "parse argument failed" (.errText e),
      invoked := false, logRecords := [] }
  | .ok arg =>
    let c := doServiceMethodCall h.argType (reflectNewArg h.argType).2 h.behavior
      env.stack emptyRW
    let wd := classifyAndWrite c.rw c.respStatus c.out c.panicInfo
    { rw := wd.1,
      invoked := c.invoked,
      logRecords :=
        if h.hasLoggerKey && r.ctxHasMethodLogger then mkLogRecords arg wd.2 env
        else [] }

/-- Claim-side (spec-worded) first-parameter shape for C6: a pointer to the
ServiceMethodContext struct. -/
def specFirstArgOk : GoType → Bool
  | .ptr (.struct' n _) => n == "ServiceMethodContext"
  | _ => false

/-- Claim-side second-parameter shape for C6: a struct pointer, a slice, or a
map with string keys and empty-interface values. -/
def specSecondArgOk : GoType → Bool
  | .ptr (.struct' _ _) => true
  | .slice _ => true
  | .map' .string' (.interface' n) => n == ""
  | _ => false

/-- Claim-side return shape for C6: exactly (error) or (*struct, error). -/
def specReturnShapeOk : List GoType → Bool
  | [.interface' n] => n == "error"
  | [.ptr (.struct' _ _), .interface' n] => n == "error"
  | _ => false

/-- Claim-side valid registration signature for C6, following the claim's
wording: a function of exactly two parameters with the stated first and
second parameter shapes and one of the two stated return shapes. -/
def specValidSignature : Option GoCandidateType → Bool
  | some (.func' [a0, a1] outs) =>
    specFirstArgOk a0 && specSecondArgOk a1 && specReturnShapeOk outs
  | _ => false

/-- The fixed textual format the C9 claim asserts for methodBegin:
YYYY-MM-DD HH:MM:SS.ffffff with exactly six fractional digits (microsecond
precision). -/
def specMicrosecondFormat (t : GoTime) : String :=
  padLeftZeros 4 (toString t.year) ++ "-" ++ padLeftZeros 2 (toString t.month) ++
    "-" ++ padLeftZeros 2 (toString t.day) ++ " " ++
    padLeftZeros 2 (toString t.hour) ++ ":" ++ padLeftZeros 2 (toString t.minute) ++
    ":" ++ padLeftZeros 2 (toString t.second) ++ "." ++
    padLeftZeros 6 (toString (t.nanos / 1000))

/-- The JSON-body priority cascade: the first present value wins. -/
def firstSome (a b : Option String) : Option String :=
  match a with
  | some s => some s
  | none => b

theorem fieldGet_decodeFields (fields : List (String × Option String))
    (vals : List (String × String)) (f : String) :
    fieldGet (decodeFields fields vals) f =
      (fieldGet fields f).map (fun old =>
        match lookupVal vals f with
        | some s => some s
        | none => old) := by
  induction fields with
  | nil => rfl
  | cons p rest ih =>
    obtain ⟨g, v⟩ := p
    by_cases hg : g = f
    · subst hg
      simp [decodeFields, fieldGet]
    · simp [decodeFields, fieldGet, hg, ih]

theorem fieldGet_freshFields (fs : List String) (f : String) :
    fieldGet (freshFields fs) f =
      if fs.any (fun g => g == f) then some none else none := by
  induction fs with
  | nil => rfl
  | cons g rest ih =>
    by_cases hg : g = f
    · subst hg
      simp [freshFields, fieldGet]
    · simp [freshFields, fieldGet, hg, ih]

theorem startsWith_json_ne_multipart (s : String)
    (h : strStartsWith s "application/json" = true) :
    (s == "multipart/form-data") = false := by
  cases hb : s == "multipart/form-data"
  · rfl
  · have hs : s = "multipart/form-data" := eq_of_beq hb
    subst hs
    exact absurd h (by decide)

theorem reflectNewArg_ptrStruct (n : String) (fs : List String) :
    reflectNewArg (.ptr (.struct' n fs)) =
      (.structArg (freshFields fs), .ptr (.struct' n fs)) := rfl

theorem doCall_typeMatch (t : GoType) (b : MethodBehavior) (stack : String)
    (w : RespWriter) :
    doServiceMethodCall t t b stack w =
      (match b.outcome with
       | .panics m =>
         { rw := (applyActions b.actions (w, 200)).1,
           respStatus := (applyActions b.actions (w, 200)).2, out := none,
           panicInfo := some { panicMsg := m, stack := stack }, invoked := true }
       | o =>
         { rw := (applyActions b.actions (w, 200)).1,
           respStatus := (applyActions b.actions (w, 200)).2, out := some o,
           panicInfo := none, invoked := true }) := by
  simp [doServiceMethodCall]

theorem doCall_typeMismatch (t u : GoType) (b : MethodBehavior) (stack : String)
    (w : RespWriter) (hne : u ≠ t) :
    doServiceMethodCall t u b stack w =
      { rw := w, respStatus := 200, out := none,
        panicInfo := some
          { panicMsg := "reflect: Call using " ++ goTypeString u ++ " as type " ++
              goTypeString t, stack := stack },
        invoked := false } := by
  simp [doServiceMethodCall, hne]

theorem parseArgument_json_error_aborts (h : ServiceHandlerM) (r : Request)
    (e : String) (arg : ArgValue)
    (hm : asciiToUpper r.method = "POST")
    (hct : strStartsWith (asciiToLower r.contentType) "application/json" = true)
    (hbp : h.bypassRequestBody = false)
    (hjson : r.jsonBody = .error e) :
    ∃ msg, parseArgument h r arg = .error msg := by
  have h2 : (asciiToLower r.contentType == "multipart/form-data") = false :=
    startsWith_json_ne_multipart _ hct
  cases hu : r.urlFormResult with
  | error e1 =>
    exact ⟨e1, by simp [parseArgument, hm, h2, hu]⟩
  | ok form =>
    cases arg with
    | nonStructTarget t =>
      exact ⟨"schema: interface must be a pointer to struct",
        by simp [parseArgument, hm, h2, hu, formDecoderDecode]⟩
    | structArg fields =>
      exact ⟨e, by
        simp [parseArgument, hm, h2, hbp, hct, hu, hjson, formDecoderDecode,
          jsonDecodeBody]⟩

/-- A plain GET request on which binding a struct argument trivially
succeeds: empty form values, no params, no JSON pass. -/
def rPlain : Request :=
  { method := "GET", contentType := "",
    multipartFormResult := .ok [], urlFormResult := .ok [],
    jsonBody := .ok .null, params := none, ctxHasMethodLogger := false }

def envPlain : Env :=
  { beginTime := { year := 2024, month := 1, day := 1, hour := 0, minute := 0,
                   second := 0, nanos := 0 },
    durationNs := 0, stack := "goroutine 7 [running]: testing" }

/-- C2: for every POST request with content-type application/json and the
bypass-body flag disabled whose body is not valid JSON for the argument shape,
the response is HTTP 400 with envelope (code 400, msg "parse argument failed",
data the error text), and the handler is never invoked. -/
theorem malformed_json_yields_400_before_invocation
    (h : ServiceHandlerM) (r : Request) (env : Env) (e : String)
    (hm : asciiToUpper r.method = "POST")
    (hct : strStartsWith (asciiToLower r.contentType) "application/json" = true)
    (hbp : h.bypassRequestBody = false)
    (hjson : r.jsonBody = .error e) :
    ∃ msg, ServeHTTPWithParams h r env =
      { rw := { headers := [("X-Content-Type-Options", "nosniff"),
                            ("Content-Type", "application/json")],
                status := some 400,
                body := [.json (.envelope 400 "parse argument failed" (.errText msg))] },
        invoked := false, logRecords := [] } := by
  obtain ⟨msg, hp⟩ :=
    parseArgument_json_error_aborts h r e (reflectNewArg h.argType).1 hm hct hbp hjson
  refine ⟨msg, ?_⟩
  unfold ServeHTTPWithParams
  rw [hp]
  rfl

/-- The repository test's malformed-JSON request: POST, application/json,
body that is not valid JSON (decoder error text as in encoding/json). -/
def rBadJson : Request :=
  { method := "POST", contentType := "application/json",
    multipartFormResult := .ok [], urlFormResult := .ok [],
    jsonBody := .error "invalid character after top-level value",
    params := none, ctxHasMethodLogger := false }

def hPlainStruct : ServiceHandlerM :=
  { hasLoggerKey := false, argType := .ptr (.struct' ("") []),
    behavior := { actions := [], outcome := .ret2 none none },
    bypassRequestBody := false }

theorem malformed_json_yields_400_before_invocation_witness :
    ∃ msg, ServeHTTPWithParams hPlainStruct rBadJson envPlain =
      { rw := { headers := [("X-Content-Type-Options", "nosniff"),
                            ("Content-Type", "application/json")],
                status := some 400,
                body := [.json (.envelope 400 "parse argument failed" (.errText msg))] },
        invoked := false, logRecords := [] } :=
  malformed_json_yields_400_before_invocation hPlainStruct rBadJson envPlain
    "invalid character after top-level value" (by decide) (by decide) rfl rfl

/-- C1: when the JSON pass is applicable (POST, application/json content type,
bypass disabled) and binding succeeds, the final bound value of any declared
field is the path-parameter value when present, else the JSON-body value when
present, else the query/form value when present (else unset).  The three
decode passes override per field in increasing priority. -/
theorem binding_priority_order (h : ServiceHandlerM) (r : Request)
    (n : String) (fs : List String) (qf jf ps : List (String × String))
    (f : String)
    (hat : h.argType = .ptr (.struct' n fs))
    (hbp : h.bypassRequestBody = false)
    (hm : asciiToUpper r.method = "POST")
    (hct : strStartsWith (asciiToLower r.contentType) "application/json" = true)
    (hform : r.urlFormResult = .ok qf)
    (hjson : r.jsonBody = .ok (.obj jf))
    (hps : r.params = some ps)
    (hf : fs.any (fun g => g == f) = true) :
    ∃ d, parseArgument h r (reflectNewArg h.argType).1 = .ok (.structArg d) ∧
      fieldGet d f = some (firstSome (lookupVal (paramsToValues ps) f)
        (firstSome (lookupVal jf f) (lookupVal qf f))) := by
  have h2 : (asciiToLower r.contentType == "multipart/form-data") = false :=
    startsWith_json_ne_multipart _ hct
  have harg : (reflectNewArg h.argType).1 = .structArg (freshFields fs) := by
    rw [hat]
    rfl
  refine ⟨decodeFields (decodeFields (decodeFields (freshFields fs) qf) jf)
    (paramsToValues ps), ?_, ?_⟩
  · rw [harg]
    simp [parseArgument, hm, h2, hbp, hct, hform, hjson, hps,
      formDecoderDecode, jsonDecodeBody]
  · rw [fieldGet_decodeFields, fieldGet_decodeFields, fieldGet_decodeFields,
      fieldGet_freshFields, hf]
    cases hq : lookupVal qf f <;> cases hj : lookupVal jf f <;>
      cases hpp : lookupVal (paramsToValues ps) f <;>
      simp [firstSome, hq, hj, hpp]

/-- The repository test's three-source request: query supplies A, B, C; the
JSON body supplies B, C; the path params supply C. -/
def hBindABC : ServiceHandlerM :=
  { hasLoggerKey := false, argType := .ptr (.struct' ("") ["A", "B", "C"]),
    behavior := { actions := [], outcome := .ret2 none none },
    bypassRequestBody := false }

def rBindABC : Request :=
  { method := "POST", contentType := "application/json",
    multipartFormResult := .ok [],
    urlFormResult := .ok [("A", "1"), ("B", "1"), ("C", "1")],
    jsonBody := .ok (.obj [("B", "2"), ("C", "2")]),
    params := some [("C", "3")], ctxHasMethodLogger := false }

theorem binding_priority_order_witness :
    ∃ d, parseArgument hBindABC rBindABC (reflectNewArg hBindABC.argType).1 =
        .ok (.structArg d) ∧
      fieldGet d "C" = some (firstSome (lookupVal (paramsToValues [("C", "3")]) "C")
        (firstSome (lookupVal [("B", "2"), ("C", "2")] "C")
          (lookupVal [("A", "1"), ("B", "1"), ("C", "1")] "C"))) :=
  binding_priority_order hBindABC rBindABC "" ["A", "B", "C"]
    [("A", "1"), ("B", "1"), ("C", "1")] [("B", "2"), ("C", "2")] [("C", "3")] "C"
    rfl rfl (by decide) (by decide) rfl rfl rfl (by decide)

/-- C8: binding the same raw request twice, each time into a fresh empty
instance of the argument shape, yields identical results: the binder is a
function of the raw request data alone. -/
theorem binding_same_request_twice_identical (h : ServiceHandlerM) (r : Request)
    (a b : ArgValue)
    (ha : a = (reflectNewArg h.argType).1)
    (hb : b = (reflectNewArg h.argType).1) :
    parseArgument h r a = parseArgument h r b := by
  subst ha
  subst hb
  rfl

theorem binding_same_request_twice_identical_witness :
    parseArgument hBindABC rBindABC (reflectNewArg hBindABC.argType).1 =
      parseArgument hBindABC rBindABC (reflectNewArg hBindABC.argType).1 :=
  binding_same_request_twice_identical hBindABC rBindABC _ _ rfl rfl

/-- A handler that sets status 403 through the context's status setter and
then panics. -/
def hPanicAfterStatus : ServiceHandlerM :=
  { hasLoggerKey := false, argType := .ptr (.struct' ("") []),
    behavior := { actions := [.setStatus 403], outcome := .panics "boom" },
    bypassRequestBody := false }

/-- C3 counterexample: a panicking handler that had already set status 403.
The panic envelope (code 500) is written, but the HTTP status of the response
is 403, not 500, because only the first WriteHeader call takes effect. -/
theorem panic_explicit_status_counterexample :
    (ServeHTTPWithParams hPanicAfterStatus rPlain envPlain).rw.status = some 403 ∧
    (ServeHTTPWithParams hPanicAfterStatus rPlain envPlain).rw.status ≠ some 500 ∧
    (ServeHTTPWithParams hPanicAfterStatus rPlain envPlain).rw.body =
      [.json (.envelope 500 "service method panicked"
        (.panicData "boom" envPlain.stack))] := by
  refine ⟨rfl, by decide, rfl⟩

/-- C3 (amended): every panic during the handler call is intercepted at the
invocation boundary and answered with the envelope (500, "service method
panicked", panic text and captured stack); the HTTP status is 500 provided the
handler had not already set an explicit status or written to the body before
panicking. -/
theorem panic_recovered_500 (h : ServiceHandlerM) (r : Request) (env : Env)
    (n : String) (fs : List String) (m : String) (a : ArgValue)
    (hat : h.argType = .ptr (.struct' n fs))
    (hact : h.behavior.actions = [])
    (hout : h.behavior.outcome = .panics m)
    (hp : parseArgument h r (reflectNewArg h.argType).1 = .ok a) :
    (ServeHTTPWithParams h r env).rw.status = some 500 ∧
    (ServeHTTPWithParams h r env).rw.body =
      [.json (.envelope 500 "service method panicked" (.panicData m env.stack))] := by
  have hty : (reflectNewArg h.argType).2 = h.argType := by
    rw [hat]
    rfl
  have hcall : doServiceMethodCall h.argType (reflectNewArg h.argType).2 h.behavior
      env.stack emptyRW =
      { rw := emptyRW, respStatus := 200, out := none,
        panicInfo := some { panicMsg := m, stack := env.stack }, invoked := true } := by
    rw [hty, doCall_typeMatch, hout, hact]
    rfl
  refine ⟨?_, ?_⟩ <;> simp only [ServeHTTPWithParams, hp, hcall] <;> rfl

def hPanicPlain : ServiceHandlerM :=
  { hasLoggerKey := false, argType := .ptr (.struct' ("") []),
    behavior := { actions := [], outcome := .panics "boom" },
    bypassRequestBody := false }

theorem panic_recovered_500_witness :
    (ServeHTTPWithParams hPanicPlain rPlain envPlain).rw.status = some 500 ∧
    (ServeHTTPWithParams hPanicPlain rPlain envPlain).rw.body =
      [.json (.envelope 500 "service method panicked"
        (.panicData "boom" envPlain.stack))] :=
  panic_recovered_500 hPanicPlain rPlain envPlain "" [] "boom" (.structArg [])
    rfl rfl rfl rfl

/-- C4 counterexample: a two-value handler returning (nil, nil) with no
explicit status gives HTTP 200, but the body is not empty: the typed nil
result boxed as an interface is non-nil, so the JSON encoding of the nil
pointer (null) is written. -/
theorem nil_nil_body_counterexample :
    (ServeHTTPWithParams hPlainStruct rPlain envPlain).rw.status = some 200 ∧
    (ServeHTTPWithParams hPlainStruct rPlain envPlain).rw.body =
      [.json (.retValue none)] ∧
    (ServeHTTPWithParams hPlainStruct rPlain envPlain).rw.body ≠ [] := by
  refine ⟨rfl, rfl, by decide⟩

/-- C4 (amended): every two-value handler that returns (nil, nil) and never
calls the status setter nor writes to the body produces HTTP 200 with a body
consisting of exactly one JSON value, null (the written encoding of the
typed nil result). -/
theorem nil_nil_writes_json_null (h : ServiceHandlerM) (r : Request) (env : Env)
    (n : String) (fs : List String) (a : ArgValue)
    (hat : h.argType = .ptr (.struct' n fs))
    (hact : h.behavior.actions = [])
    (hout : h.behavior.outcome = .ret2 none none)
    (hp : parseArgument h r (reflectNewArg h.argType).1 = .ok a) :
    (ServeHTTPWithParams h r env).rw.status = some 200 ∧
    (ServeHTTPWithParams h r env).rw.body = [.json (.retValue none)] := by
  have hty : (reflectNewArg h.argType).2 = h.argType := by
    rw [hat]
    rfl
  have hcall : doServiceMethodCall h.argType (reflectNewArg h.argType).2 h.behavior
      env.stack emptyRW =
      { rw := emptyRW, respStatus := 200, out := some (.ret2 none none),
        panicInfo := none, invoked := true } := by
    rw [hty, doCall_typeMatch, hout, hact]
    rfl
  refine ⟨?_, ?_⟩ <;> simp only [ServeHTTPWithParams, hp, hcall] <;> rfl

theorem nil_nil_writes_json_null_witness :
    (ServeHTTPWithParams hPlainStruct rPlain envPlain).rw.status = some 200 ∧
    (ServeHTTPWithParams hPlainStruct rPlain envPlain).rw.body =
      [.json (.retValue none)] :=
  nil_nil_writes_json_null hPlainStruct rPlain envPlain "" [] (.structArg [])
    rfl rfl rfl rfl

/-- A handler that sets explicit status 200 and then returns an error. -/
def hStatus200Error : ServiceHandlerM :=
  { hasLoggerKey := false, argType := .ptr (.struct' ("") []),
    behavior := { actions := [.setStatus 200], outcome := .ret1 (some "boom") },
    bypassRequestBody := false }

/-- C5 counterexample: a handler that calls the status setter with S = 200 and
returns a non-nil error; the envelope code is 500, not the explicit 200,
because the source replaces a respStatus equal to http.StatusOK with 500. -/
theorem explicit_status_200_counterexample :
    (ServeHTTPWithParams hStatus200Error rPlain envPlain).rw.body =
      [.json (.envelope 500 "service method error" (.errText "boom"))] ∧
    (ServeHTTPWithParams hStatus200Error rPlain envPlain).rw.body ≠
      [.json (.envelope 200 "service method error" (.errText "boom"))] := by
  refine ⟨rfl, by decide⟩

/-- C5 (amended): for every handler that calls the status setter with a status
S different from 200 and then returns a non-nil error, the envelope carries
exactly S as its code and the HTTP status is S; for S = 200 the envelope code
is 500 instead. -/
theorem explicit_status_error_envelope (h : ServiceHandlerM) (r : Request)
    (env : Env) (n : String) (fs : List String) (S : Nat) (em : String)
    (a : ArgValue)
    (hat : h.argType = .ptr (.struct' n fs))
    (hact : h.behavior.actions = [.setStatus S])
    (hS : S ≠ 200)
    (herr : methodErrorOf (some h.behavior.outcome) = some em)
    (hp : parseArgument h r (reflectNewArg h.argType).1 = .ok a) :
    (ServeHTTPWithParams h r env).rw.status = some S ∧
    (ServeHTTPWithParams h r env).rw.body =
      [.json (.envelope S "service method error" (.errText em))] := by
  have hty : (reflectNewArg h.argType).2 = h.argType := by
    rw [hat]
    rfl
  have hb : (S == 200) = false := beq_eq_false_iff_ne.mpr hS
  cases houtc : h.behavior.outcome with
  | panics m =>
    rw [houtc] at herr
    simp [methodErrorOf] at herr
  | ret1 e =>
    rw [houtc] at herr
    simp only [methodErrorOf] at herr
    subst herr
    have hcall : doServiceMethodCall h.argType (reflectNewArg h.argType).2
        h.behavior env.stack emptyRW =
        { rw := { headers := [], status := some S, body := [] }, respStatus := S,
          out := some (.ret1 (some em)), panicInfo := none, invoked := true } := by
      rw [hty, doCall_typeMatch, houtc, hact]
      rfl
    refine ⟨?_, ?_⟩ <;> simp only [ServeHTTPWithParams, hp, hcall] <;>
      simp [classifyAndWrite, methodErrorOf, methodReturnOf, hb,
        writeErrorResponse, setResponseHeader, rwWriteHeader, rwWrite, valuesSet]
  | ret2 v e =>
    rw [houtc] at herr
    simp only [methodErrorOf] at herr
    subst herr
    have hcall : doServiceMethodCall h.argType (reflectNewArg h.argType).2
        h.behavior env.stack emptyRW =
        { rw := { headers := [], status := some S, body := [] }, respStatus := S,
          out := some (.ret2 v (some em)), panicInfo := none, invoked := true } := by
      rw [hty, doCall_typeMatch, houtc, hact]
      rfl
    refine ⟨?_, ?_⟩ <;> simp only [ServeHTTPWithParams, hp, hcall] <;>
      simp [classifyAndWrite, methodErrorOf, methodReturnOf, hb,
        writeErrorResponse, setResponseHeader, rwWriteHeader, rwWrite, valuesSet]

def hStatus503Error : ServiceHandlerM :=
  { hasLoggerKey := false, argType := .ptr (.struct' ("") []),
    behavior := { actions := [.setStatus 503], outcome := .ret1 (some "overloaded") },
    bypassRequestBody := false }

theorem explicit_status_error_envelope_witness :
    (ServeHTTPWithParams hStatus503Error rPlain envPlain).rw.status = some 503 ∧
    (ServeHTTPWithParams hStatus503Error rPlain envPlain).rw.body =
      [.json (.envelope 503 "service method error" (.errText "overloaded"))] :=
  explicit_status_error_envelope hStatus503Error rPlain envPlain "" [] 503
    "overloaded" (.structArg []) rfl rfl (by decide) rfl rfl

theorem specFirstArgOk_eq (a : GoType) :
    specFirstArgOk a = isTypeServiceMethodContext a := by
  cases a with
  | ptr e => cases e <;> rfl
  | struct' n fs => rfl
  | slice e => rfl
  | map' k e => rfl
  | interface' n => rfl
  | funcOpaque => rfl
  | int' => rfl
  | string' => rfl
  | bool' => rfl

theorem specSecondArgOk_eq (a : GoType) :
    specSecondArgOk a = (isSlice a || isStringMap a || isStructPointer a) := by
  cases a with
  | ptr e =>
    cases e <;> simp [specSecondArgOk, isSlice, isStringMap, isStructPointer]
  | map' k e =>
    cases k <;> cases e <;>
      simp [specSecondArgOk, isSlice, isStringMap, isStructPointer]
  | struct' n fs => rfl
  | slice e => rfl
  | interface' n => rfl
  | funcOpaque => rfl
  | int' => rfl
  | string' => rfl
  | bool' => rfl

theorem specReturnShapeOk_eq (ins outs : List GoType) :
    specReturnShapeOk outs =
      (isCustomResponseBodyFunction (.func' ins outs) ||
       isDelegatedResponseBodyFunction (.func' ins outs)) := by
  match outs with
  | [] => rfl
  | [o] =>
    cases o <;>
      simp [specReturnShapeOk, isCustomResponseBodyFunction,
        isDelegatedResponseBodyFunction]
  | [o1, o2] =>
    cases o1 with
    | ptr e1 =>
      cases e1 <;> cases o2 <;>
        simp [specReturnShapeOk, isCustomResponseBodyFunction,
          isDelegatedResponseBodyFunction]
    | struct' n fs =>
      cases o2 <;>
        simp [specReturnShapeOk, isCustomResponseBodyFunction,
          isDelegatedResponseBodyFunction]
    | slice e =>
      cases o2 <;>
        simp [specReturnShapeOk, isCustomResponseBodyFunction,
          isDelegatedResponseBodyFunction]
    | map' k e =>
      cases o2 <;>
        simp [specReturnShapeOk, isCustomResponseBodyFunction,
          isDelegatedResponseBodyFunction]
    | interface' nn =>
      cases o2 <;>
        simp [specReturnShapeOk, isCustomResponseBodyFunction,
          isDelegatedResponseBodyFunction]
    | funcOpaque =>
      cases o2 <;>
        simp [specReturnShapeOk, isCustomResponseBodyFunction,
          isDelegatedResponseBodyFunction]
    | int' =>
      cases o2 <;>
        simp [specReturnShapeOk, isCustomResponseBodyFunction,
          isDelegatedResponseBodyFunction]
    | string' =>
      cases o2 <;>
        simp [specReturnShapeOk, isCustomResponseBodyFunction,
          isDelegatedResponseBodyFunction]
    | bool' =>
      cases o2 <;>
        simp [specReturnShapeOk, isCustomResponseBodyFunction,
          isDelegatedResponseBodyFunction]
  | o1 :: o2 :: o3 :: rest =>
    cases o1 with
    | ptr e1 =>
      cases e1 <;> cases o2 <;>
        simp [specReturnShapeOk, isCustomResponseBodyFunction,
          isDelegatedResponseBodyFunction]
    | struct' n fs =>
      cases o2 <;>
        simp [specReturnShapeOk, isCustomResponseBodyFunction,
          isDelegatedResponseBodyFunction]
    | slice e =>
      cases o2 <;>
        simp [specReturnShapeOk, isCustomResponseBodyFunction,
          isDelegatedResponseBodyFunction]
    | map' k e =>
      cases o2 <;>
        simp [specReturnShapeOk, isCustomResponseBodyFunction,
          isDelegatedResponseBodyFunction]
    | interface' nn =>
      cases o2 <;>
        simp [specReturnShapeOk, isCustomResponseBodyFunction,
          isDelegatedResponseBodyFunction]
    | funcOpaque =>
      cases o2 <;>
        simp [specReturnShapeOk, isCustomResponseBodyFunction,
          isDelegatedResponseBodyFunction]
    | int' =>
      cases o2 <;>
        simp [specReturnShapeOk, isCustomResponseBodyFunction,
          isDelegatedResponseBodyFunction]
    | string' =>
      cases o2 <;>
        simp [specReturnShapeOk, isCustomResponseBodyFunction,
          isDelegatedResponseBodyFunction]
    | bool' =>
      cases o2 <;>
        simp [specReturnShapeOk, isCustomResponseBodyFunction,
          isDelegatedResponseBodyFunction]

/-- C6: registration (NewServiceHandler) succeeds exactly on candidates of the
claimed shape: a function of exactly two parameters whose first parameter is
*ServiceMethodContext, whose second parameter is a struct pointer, a slice, or
a string-keyed empty-interface map, and whose return shape is exactly (error)
or (*struct, error); everything else fails at registration time. -/
theorem registration_succeeds_iff_valid_shape
    (mt : Option GoCandidateType) (b : MethodBehavior) (k bp : Bool) :
    isOkE (NewServiceHandler mt b k bp) = specValidSignature mt := by
  have hnew : isOkE (NewServiceHandler mt b k bp) =
      isOkE (checkServiceMethodPrototype mt) := by
    cases hc : checkServiceMethodPrototype mt <;>
      simp [NewServiceHandler, hc, isOkE]
  rw [hnew]
  cases mt with
  | none => rfl
  | some c =>
    cases c with
    | nonFunc t => rfl
    | func' ins outs =>
      match ins with
      | [] => rfl
      | [a0] => rfl
      | a0 :: a1 :: a2 :: rest => rfl
      | [a0, a1] =>
        cases h0 : isTypeServiceMethodContext a0 <;>
          cases h1 : (isSlice a1 || isStringMap a1 || isStructPointer a1) <;>
            cases h2 : (isCustomResponseBodyFunction (.func' [a0, a1] outs) ||
                isDelegatedResponseBodyFunction (.func' [a0, a1] outs)) <;>
              simp [checkServiceMethodPrototype, specValidSignature, isOkE,
                h0, h1, h2, specFirstArgOk_eq, specSecondArgOk_eq,
                specReturnShapeOk_eq [a0, a1] outs]

/-- A valid candidate signature (the shape used throughout the repository's
tests). -/
def tValidSig : Option GoCandidateType :=
  some (.func' [.ptr (.struct' ("ServiceMethodContext")
      ["Context", "RemoteAddr", "RequestHeader", "RequestBodyReader",
       "ResponseStatusSetter", "ResponseHeader", "ResponseBodyWriter"]),
    .ptr (.struct' ("") ["A"])] [.interface' ("error")])

theorem registration_succeeds_iff_valid_shape_witness :
    isOkE (NewServiceHandler tValidSig { actions := [], outcome := .ret1 none }
      false false) = specValidSignature tValidSig :=
  registration_succeeds_iff_valid_shape tValidSig
    { actions := [], outcome := .ret1 none } false false

/-- An error-only handler returning nil: the success-no-value outcome. -/
def hRet1Nil : ServiceHandlerM :=
  { hasLoggerKey := false, argType := .ptr (.struct' ("") []),
    behavior := { actions := [], outcome := .ret1 none },
    bypassRequestBody := false }

/-- C7 counterexample: on the success-no-value outcome the core writes
nothing, setResponseHeader is never called, and the response carries neither
Content-Type nor X-Content-Type-Options. -/
theorem headers_success_no_value_counterexample :
    lookupVal (ServeHTTPWithParams hRet1Nil rPlain envPlain).rw.headers
      "Content-Type" = none ∧
    lookupVal (ServeHTTPWithParams hRet1Nil rPlain envPlain).rw.headers
      "X-Content-Type-Options" = none ∧
    (ServeHTTPWithParams hRet1Nil rPlain envPlain).rw.headers = [] := by
  refine ⟨rfl, rfl, rfl⟩

/-- C7 (amended): whenever the core itself writes a response (bind failure,
recovered fault, application error, or success with a value) the response
carries both X-Content-Type-Options: nosniff and Content-Type:
application/json; the success-no-value case writes nothing and sets
neither.  The hypothesis excludes the handler's own direct writes, which the
core does not decorate. -/
theorem core_written_responses_carry_headers (h : ServiceHandlerM) (r : Request)
    (env : Env)
    (hact : h.behavior.actions = [])
    (hbody : (ServeHTTPWithParams h r env).rw.body ≠ []) :
    lookupVal (ServeHTTPWithParams h r env).rw.headers "Content-Type" =
      some "application/json" ∧
    lookupVal (ServeHTTPWithParams h r env).rw.headers "X-Content-Type-Options" =
      some "nosniff" := by
  cases hp : parseArgument h r (reflectNewArg h.argType).1 with
  | error e =>
    refine ⟨?_, ?_⟩ <;> simp only [ServeHTTPWithParams, hp] <;> rfl
  | ok a =>
    by_cases hty : (reflectNewArg h.argType).2 = h.argType
    · cases houtc : h.behavior.outcome with
      | panics m =>
        have hcall : doServiceMethodCall h.argType (reflectNewArg h.argType).2
            h.behavior env.stack emptyRW =
            { rw := emptyRW, respStatus := 200, out := none,
              panicInfo := some { panicMsg := m, stack := env.stack },
              invoked := true } := by
          rw [hty, doCall_typeMatch, houtc, hact]
          rfl
        refine ⟨?_, ?_⟩ <;> simp only [ServeHTTPWithParams, hp, hcall] <;> rfl
      | ret1 e1 =>
        have hcall : doServiceMethodCall h.argType (reflectNewArg h.argType).2
            h.behavior env.stack emptyRW =
            { rw := emptyRW, respStatus := 200, out := some (.ret1 e1),
              panicInfo := none, invoked := true } := by
          rw [hty, doCall_typeMatch, houtc, hact]
          rfl
        cases e1 with
        | some em =>
          refine ⟨?_, ?_⟩ <;> simp only [ServeHTTPWithParams, hp, hcall] <;> rfl
        | none =>
          exfalso
          apply hbody
          simp only [ServeHTTPWithParams, hp, hcall]
          rfl
      | ret2 v e2 =>
        have hcall : doServiceMethodCall h.argType (reflectNewArg h.argType).2
            h.behavior env.stack emptyRW =
            { rw := emptyRW, respStatus := 200, out := some (.ret2 v e2),
              panicInfo := none, invoked := true } := by
          rw [hty, doCall_typeMatch, houtc, hact]
          rfl
        cases e2 with
        | some em =>
          refine ⟨?_, ?_⟩ <;> simp only [ServeHTTPWithParams, hp, hcall] <;> rfl
        | none =>
          refine ⟨?_, ?_⟩ <;> simp only [ServeHTTPWithParams, hp, hcall] <;> rfl
    · have hcall := doCall_typeMismatch h.argType (reflectNewArg h.argType).2
        h.behavior env.stack emptyRW hty
      refine ⟨?_, ?_⟩ <;> simp only [ServeHTTPWithParams, hp, hcall] <;> rfl

theorem core_written_responses_carry_headers_witness :
    lookupVal (ServeHTTPWithParams hPlainStruct rPlain envPlain).rw.headers
      "Content-Type" = some "application/json" ∧
    lookupVal (ServeHTTPWithParams hPlainStruct rPlain envPlain).rw.headers
      "X-Content-Type-Options" = some "nosniff" :=
  core_written_responses_carry_headers hPlainStruct rPlain envPlain rfl (by decide)

/-- A handler registered with a logger context key. -/
def hLogged : ServiceHandlerM :=
  { hasLoggerKey := true, argType := .ptr (.struct' ("") []),
    behavior := { actions := [], outcome := .ret1 none },
    bypassRequestBody := false }

/-- A request whose context carries a MethodLogger. -/
def rLogged : Request :=
  { method := "GET", contentType := "", multipartFormResult := .ok [],
    urlFormResult := .ok [], jsonBody := .ok .null, params := none,
    ctxHasMethodLogger := true }

/-- A clock reading with a full nanosecond fraction. -/
def envNanos : Env :=
  { beginTime := { year := 2024, month := 1, day := 2, hour := 3, minute := 4,
                   second := 5, nanos := 123456789 },
    durationNs := 1500000000, stack := "st" }

/-- C9 counterexample: with an active hook, the methodBegin value recorded at
a time with fraction .123456789 carries nine fractional digits (the source's
layout is 2006-01-02 15:04:05.999999999), not the claimed fixed six-digit
microsecond format. -/
theorem log_time_format_counterexample :
    lookupVal (ServeHTTPWithParams hLogged rLogged envNanos).logRecords
      "methodBegin" = some "2024-01-02 03:04:05.123456789" ∧
    "2024-01-02 03:04:05.123456789" ≠ specMicrosecondFormat envNanos.beginTime := by
  refine ⟨rfl, by decide⟩

/-- C9 (amended): for every request whose binding succeeds, when the handler
was built with a logger context key and the request context carries a
MethodLogger, the core records exactly the four fields args, resp, methodBegin
and methodDuration in that order; methodBegin is rendered with the Go layout
2006-01-02 15:04:05.999999999 (up to nanosecond precision, trailing fractional
zeros trimmed, the point omitted for whole seconds) and methodDuration is the
invocation duration in decimal fractional seconds.  Requests that fail binding
return before the logging block and record nothing. -/
theorem access_log_four_fields (h : ServiceHandlerM) (r : Request) (env : Env)
    (a : ArgValue)
    (hkey : h.hasLoggerKey = true)
    (hctx : r.ctxHasMethodLogger = true)
    (hp : parseArgument h r (reflectNewArg h.argType).1 = .ok a) :
    ∃ respd, (ServeHTTPWithParams h r env).logRecords =
      [("args", marshalArg a), ("resp", marshalRespData respd),
       ("methodBegin", goFormatDateTimeNano env.beginTime),
       ("methodDuration", durationSecondsString env.durationNs)] := by
  simp only [ServeHTTPWithParams, hp, hkey, hctx, Bool.and_self, if_true,
    mkLogRecords]
  exact ⟨_, rfl⟩

theorem access_log_four_fields_witness :
    ∃ respd, (ServeHTTPWithParams hLogged rLogged envPlain).logRecords =
      [("args", marshalArg (.structArg [])), ("resp", marshalRespData respd),
       ("methodBegin", goFormatDateTimeNano envPlain.beginTime),
       ("methodDuration", durationSecondsString envPlain.durationNs)] :=
  access_log_four_fields hLogged rLogged envPlain (.structArg []) rfl rfl rfl

theorem serve_mismatch_helper (h : ServiceHandlerM) (r : Request) (env : Env)
    (hne : (reflectNewArg h.argType).2 ≠ h.argType) :
    (ServeHTTPWithParams h r env).invoked = false ∧
    ((ServeHTTPWithParams h r env).rw.status = some 400 ∨
     (ServeHTTPWithParams h r env).rw.status = some 500) := by
  cases hp : parseArgument h r (reflectNewArg h.argType).1 with
  | error e =>
    refine ⟨?_, Or.inl ?_⟩ <;> simp only [ServeHTTPWithParams, hp] <;> rfl
  | ok a =>
    have hcall := doCall_typeMismatch h.argType (reflectNewArg h.argType).2
      h.behavior env.stack emptyRW hne
    refine ⟨?_, Or.inr ?_⟩ <;> simp only [ServeHTTPWithParams, hp, hcall] <;> rfl

/-- C10: for every handler whose declared argument type is a slice or a
string-keyed empty-interface map (shapes the signature validator accepts), no
request ever completes as a successful invocation: reflect.New produces a
pointer to the element type, which is not a value of the declared type, so the
handler body never runs and every request ends as a bind failure (400) or a
recovered fault (500). -/
theorem slice_or_map_never_successfully_invoked (h : ServiceHandlerM)
    (r : Request) (env : Env)
    (hs : isSlice h.argType = true ∨ isStringMap h.argType = true) :
    (ServeHTTPWithParams h r env).invoked = false ∧
    ((ServeHTTPWithParams h r env).rw.status = some 400 ∨
     (ServeHTTPWithParams h r env).rw.status = some 500) := by
  apply serve_mismatch_helper
  rcases hs with hsl | hsm
  · cases hA : h.argType <;> simp_all [isSlice, reflectNewArg, elemType]
  · cases hA : h.argType <;> simp_all [isStringMap, reflectNewArg, elemType]

def hSliceArg : ServiceHandlerM :=
  { hasLoggerKey := false, argType := .slice (.struct' ("") ["A"]),
    behavior := { actions := [], outcome := .ret1 none },
    bypassRequestBody := false }

theorem slice_or_map_never_successfully_invoked_witness :
    (ServeHTTPWithParams hSliceArg rPlain envPlain).invoked = false ∧
    ((ServeHTTPWithParams hSliceArg rPlain envPlain).rw.status = some 400 ∨
     (ServeHTTPWithParams hSliceArg rPlain envPlain).rw.status = some 500) :=
  slice_or_map_never_successfully_invoked hSliceArg rPlain envPlain
    (Or.inl (by decide))
